import Mathlib

/-!
# Verification of the OpenDiablo2 UI widget factory (`d2systems.UIWidgetFactory`)

Shallow embedding of `src/d2core/d2systems/scene_widget_system.go`:
the widget load queues, the label / button / checkbox processing steps,
the bitmap-font cache, the tick time budget and the boot state machine.

Entities are natural numbers (`akara.EID`); component stores are maps
`EID → Option C`; Go maps used as load queues are association lists.
Decoded payloads (sprite images, font-table data, surfaces) are opaque
numeric handles; `none` models a Go `nil` pointer.  Shared
`*d2bitmapfont.BitmapFont` objects are numbered by allocation order, so
Go pointer identity is identity of the number.
-/

namespace D2Widgets

/-- Source `akara.EID` — entity identifier.  Fresh ids are allocated from 1,
so 0 is the Go zero value that never names a live entity. -/
abbrev EID := Nat

/-- Identity of a shared `*d2bitmapfont.BitmapFont` object (pointer identity). -/
abbrev FontId := Nat

/-- Source `d2components.File` — a resource locator. -/
structure FileC where
  path : String
  deriving Repr, DecidableEq

/-- Source `d2components.FontTable` — glyph-table payload; `data = none` models a nil `Data`. -/
structure FontTableC where
  data : Option Nat
  deriving Repr, DecidableEq

/-- Source `d2components.Sprite` — sprite payload with its source paths;
`sprite = none` models a nil decoded `Sprite` pointer. -/
structure SpriteC where
  sprite : Option Nat
  spritePath : String
  palettePath : String
  deriving Repr, DecidableEq

/-- Source `d2components.BitmapFont` — reference to a shared bitmap-font object. -/
structure BitmapFontC where
  font : FontId
  deriving Repr, DecidableEq

/-- Source `d2components.Label` — label text and its (nullable) font reference. -/
structure LabelC where
  text : String
  font : Option FontId
  dirty : Bool
  backgroundColor : Option Nat
  deriving Repr, DecidableEq

/-- The shared bitmap-font object itself; `bound` records whether its sprite
has been bound to a renderer (`BitmapFont.Sprite.BindRenderer`). -/
structure FontObj where
  bound : Bool
  deriving Repr, DecidableEq

/-- Source `d2button.ButtonLayout` — the static layout descriptor resolved per button type. -/
structure ButtonLayout where
  spritePath : String
  palettePath : String
  fontPath : String
  xSegments : Nat
  ySegments : Nat
  baseFrame : Int
  disabledFrame : Int
  hasImage : Bool
  allowFrameChange : Bool
  deriving Repr, DecidableEq

/-- Source `d2button.ButtonState*` entity references (`button.States`); the Go zero
value of an `akara.EID` field is 0. -/
structure ButtonStates where
  normal : EID
  pressed : EID
  toggled : EID
  pressedToggled : EID
  disabled : EID
  deriving Repr, DecidableEq

/-- The five per-state surfaces (`button.Surfaces`). -/
structure ButtonSurfaces where
  normal : Option Nat
  pressed : Option Nat
  toggled : Option Nat
  pressedToggled : Option Nat
  disabled : Option Nat
  deriving Repr, DecidableEq

/-- Source `d2components.Button`. -/
structure ButtonC where
  layout : ButtonLayout
  states : ButtonStates
  surfaces : ButtonSurfaces
  sprite : Option Nat
  deriving Repr, DecidableEq

/-- Source `d2components.Checkbox` — checkbox logic object; the layout's sprite/palette
paths and geometry come from the external `d2checkbox` defaults. -/
structure CheckboxC where
  spritePath : String
  palettePath : String
  pressed : Bool
  enabled : Bool
  sprite : Option Nat
  deriving Repr, DecidableEq

/-- Source `d2components.Texture` — a rendered surface slot (`none` = nil surface). -/
structure TextureC where
  texture : Option Nat
  deriving Repr, DecidableEq

/-- Source `d2components.SceneGraphNode` — non-owning parent reference. -/
structure NodeC where
  parent : Option EID
  deriving Repr, DecidableEq

/-- Source `d2enum.SceneState`; the Go zero value is `uninitialized`. -/
inductive SceneState where
  | uninitialized
  | booted
  deriving Repr, DecidableEq

/-- The render-system collaborator: it exposes a nullable renderer handle. -/
structure RenderSys where
  renderer : Option Nat
  deriving Repr, DecidableEq

/-- Source `labelLoadQueueEntry` — the table and sprite entities a label waits on. -/
structure LabelEntry where
  table : EID
  sprite : EID
  deriving Repr, DecidableEq

/-- Source `buttonLoadQueueEntry` — the label and sprite entities a button waits on. -/
structure ButtonEntry where
  label : EID
  sprite : EID
  deriving Repr, DecidableEq

/-- Source `checkboxLoadQueueEntry` — the sprite entity a checkbox waits on. -/
structure CheckboxEntry where
  sprite : EID
  deriving Repr, DecidableEq

/-- Modelled from the spec: `d2cache` (not under `src/`) is a
content-addressed, budget-bounded store; `retrieve(key)` returns the cached
artifact, and `insert(key, artifact, cost)` is rejected with an error when the
total cost would exceed the fixed budget (spec §4.3, §6, §7(b)). -/
structure Cache where
  budget : Nat
  entries : List (String × FontId × Nat)
  deriving Repr, DecidableEq

/-- Total cost held by the cache. -/
def Cache.weight (c : Cache) : Nat :=
  (c.entries.map (fun e => e.2.2)).sum

/-- Modelled from the spec: `retrieve(key) → Option artifact`. -/
def Cache.retrieve (c : Cache) (key : String) : Option FontId :=
  (c.entries.lookup key).map Prod.fst

/-- Modelled from the spec: `insert(key, artifact, cost)`; the returned flag is
`true` when the insert is rejected by the budget (the error case). -/
def Cache.insert (c : Cache) (key : String) (v : FontId) (cost : Nat) : Cache × Bool :=
  if c.weight + cost > c.budget then (c, true)
  else ({ c with entries := (key, v, cost) :: c.entries }, false)

/-- Source `d2cache.CreateCache(budget)`. -/
def createCache (budget : Nat) : Cache :=
  { budget := budget, entries := [] }

/-- Source `fontCacheBudget`. -/
def fontCacheBudget : Nat := 64

/-- Source `isNotSegmented` — the reserved "no distinct disabled frame" sentinel. -/
def isNotSegmented : Int := -1

/-- Modelled from the spec: the `d2button` frame-offset convention
(base + pressed offset = Pressed state frame). -/
def buttonStatePressed : Int := 1

/-- Modelled from the spec: toggled frame offset. -/
def buttonStateToggled : Int := 2

/-- Modelled from the spec: pressed-and-toggled frame offset. -/
def buttonStatePressedToggled : Int := 3

/-- The `UIWidgetFactory` together with the slice of the ECS world it touches.
Component stores are the injected `t.Components.*` factories; `alive` and
`nextEntity` model the world's entity allocator; `fonts` is the heap of shared
bitmap-font objects; `warnings` is the sequence of `Logger.Warning` calls. -/
structure Factory where
  state : SceneState
  renderSystem : Option RenderSys
  nextEntity : Nat
  nextFont : Nat
  nextSurface : Nat
  alive : EID → Bool
  fileC : EID → Option FileC
  fontTableC : EID → Option FontTableC
  spriteC : EID → Option SpriteC
  bitmapFontC : EID → Option BitmapFontC
  labelC : EID → Option LabelC
  buttonC : EID → Option ButtonC
  checkboxC : EID → Option CheckboxC
  textureC : EID → Option TextureC
  transformC : EID → Option (Int × Int)
  interactiveC : EID → Bool
  nodeC : EID → Option NodeC
  colorC : EID → Option Nat
  readyC : EID → Bool
  fonts : FontId → Option FontObj
  bitmapFontCache : Cache
  buttonLoadQueue : List (EID × ButtonEntry)
  checkboxLoadQueue : List (EID × CheckboxEntry)
  labelLoadQueue : List (EID × LabelEntry)
  warnings : List String

namespace Factory

/-- Pointwise update of a component store. -/
def upd {C : Type} (m : EID → Option C) (e : EID) (v : Option C) : EID → Option C :=
  fun x => if x = e then v else m x

/-- Pointwise update of a boolean store. -/
def updB (m : EID → Bool) (e : EID) (v : Bool) : EID → Bool :=
  fun x => if x = e then v else m x

/-- Source `world.NewEntity()` — allocate a fresh entity id. -/
def newEntity (t : Factory) : EID × Factory :=
  (t.nextEntity,
   { t with nextEntity := t.nextEntity + 1, alive := updB t.alive t.nextEntity true })

/-- Source `world.RemoveEntity(id)` — destroy the entity and all its components. -/
def removeEntity (t : Factory) (e : EID) : Factory :=
  { t with
    alive := updB t.alive e false
    fileC := upd t.fileC e none
    fontTableC := upd t.fontTableC e none
    spriteC := upd t.spriteC e none
    bitmapFontC := upd t.bitmapFontC e none
    labelC := upd t.labelC e none
    buttonC := upd t.buttonC e none
    checkboxC := upd t.checkboxC e none
    textureC := upd t.textureC e none
    transformC := upd t.transformC e none
    interactiveC := updB t.interactiveC e false
    nodeC := upd t.nodeC e none
    colorC := upd t.colorC e none
    readyC := updB t.readyC e false }

/-- Remove a queue entry (Go `delete(queue, eid)`). -/
def eraseKey {E : Type} (q : List (EID × E)) (e : EID) : List (EID × E) :=
  q.filter (fun kv => kv.1 != e)

/-- Modelled from the spec: `SpriteFactory.Sprite(x, y, imagePath, palettePath)`
(the sprite-creation collaborator is not under `src/`): it returns a fresh
entity immediately, carrying a `Sprite` component that records the requested
paths with a nil decoded image; the image is decoded, and `Ready` added, by
the sprite pipeline asynchronously. -/
def sprite (t : Factory) (_x _y : Int) (spritePath palettePath : String) : EID × Factory :=
  let (e, t) := t.newEntity
  (e, { t with spriteC := upd t.spriteC e (some ⟨none, spritePath, palettePath⟩) })

/-- Modelled from the spec: `SpriteFactory.SegmentedSprite` — same contract as
`sprite`, for a sheet sliced into a frame grid. -/
def segmentedSprite (t : Factory) (x y : Int) (spritePath palettePath : String)
    (_xseg _yseg : Nat) (_frame : Int) : EID × Factory :=
  t.sprite x y spritePath palettePath

/-- Source `Ready.Add(e)` — add the readiness marker. -/
def addReady (t : Factory) (e : EID) : Factory :=
  { t with readyC := updB t.readyC e true }

/-- Source `Logger.Warning(msg)` — non-fatal; the call records the message and returns. -/
def warning (t : Factory) (msg : String) : Factory :=
  { t with warnings := t.warnings ++ [msg] }

/-- Source `bmfComponent.Sprite.BindRenderer(t.renderer)` — bind the shared font
object's sprite to the active renderer. -/
def bindFont (t : Factory) (f : FontId) : Factory :=
  { t with fonts := fun x => if x = f then (t.fonts x).map (fun o => { o with bound := true })
                             else t.fonts x }

/-- Source `NewUIWidgetFactory` — fresh factory: zero-valued state (`Uninitialized`),
a bitmap-font cache with the fixed budget, and empty load queues. -/
def newUIWidgetFactory (renderSystem : Option RenderSys) : Factory where
  state := .uninitialized
  renderSystem := renderSystem
  nextEntity := 1
  nextFont := 0
  nextSurface := 0
  alive := fun _ => false
  fileC := fun _ => none
  fontTableC := fun _ => none
  spriteC := fun _ => none
  bitmapFontC := fun _ => none
  labelC := fun _ => none
  buttonC := fun _ => none
  checkboxC := fun _ => none
  textureC := fun _ => none
  transformC := fun _ => none
  interactiveC := fun _ => false
  nodeC := fun _ => none
  colorC := fun _ => none
  readyC := fun _ => false
  fonts := fun _ => none
  bitmapFontCache := createCache fontCacheBudget
  buttonLoadQueue := []
  checkboxLoadQueue := []
  labelLoadQueue := []
  warnings := []

/-- Source `boot` — transition to `Booted` only when the render system exists and its
renderer is non-nil; otherwise leave the factory unchanged. -/
def boot (t : Factory) : Factory :=
  match t.renderSystem with
  | none => t
  | some rs =>
    match rs.renderer with
    | none => t
    | some _ => { t with state := .booted }

end Factory

/-- Source `fontCacheKey(t, s, p)` = `fmt.Sprintf("%s::%s::%s", t, s, p)`. -/
def fontCacheKey (t s p : String) : String :=
  t ++ "::" ++ s ++ "::" ++ p

namespace Factory

/-- Source `UIWidgetFactory.Label(text, font, palettePath)` — allocate the label
entity and its glyph-table entity, request the sprite, queue the pair, attach
the `Label` component with the given text, and return the label entity. -/
def Label (t : Factory) (text font palettePath : String) : EID × Factory :=
  let tablePath := font ++ ".tbl"
  let spritePath := font ++ ".dc6"
  let (labelEID, t) := t.newEntity
  let (tableEID, t) := t.newEntity
  let t := { t with fileC := upd t.fileC tableEID (some ⟨tablePath⟩) }
  let (spriteEID, t) := t.sprite 0 0 spritePath palettePath
  let t := { t with labelLoadQueue :=
               t.labelLoadQueue ++ [(labelEID, LabelEntry.mk tableEID spriteEID)] }
  let t := { t with labelC := upd t.labelC labelEID
                      (some { text := text, font := none, dirty := true, backgroundColor := none }) }
  (labelEID, t)

/-- Source `createBitmapFont(entry)` — build a new shared font object from the decoded
glyph table and sprite; returns nil when either payload is missing or not yet
decoded.  A new font object gets the next fresh identity (pointer allocation). -/
def createBitmapFont (t : Factory) (entry : LabelEntry) : Option FontId × Factory :=
  match t.fontTableC entry.table, t.spriteC entry.sprite with
  | some table, some sprite =>
    if sprite.sprite = none ∨ table.data = none then (none, t)
    else
      let f := t.nextFont
      (some f,
       { t with nextFont := f + 1,
                fonts := fun x => if x = f then some ⟨false⟩ else t.fonts x })
  | _, _ => (none, t)

/-- The cache-hit path of `addBitmapFontForLabel`: attach the shared cached
font, mark the label `Ready`, and drop the queue entry. -/
def attachCachedFont (t : Factory) (labelEID : EID) (f : FontId) : Factory :=
  let t := { t with bitmapFontC := upd t.bitmapFontC labelEID (some ⟨f⟩) }
  let t := t.addReady labelEID
  { t with labelLoadQueue := eraseKey t.labelLoadQueue labelEID }

/-- The cache-miss path of `addBitmapFontForLabel`: build the font (bailing
out when the payloads are not yet decoded), insert it into the cache — logging
a warning when the insert is rejected — and attach it to the label. -/
def buildAndAttachFont (t : Factory) (labelEID : EID) (entry : LabelEntry)
    (cacheKey : String) : Factory :=
  match t.createBitmapFont entry with
  | (none, t) => t
  | (some bmf, t) =>
    let (cache, rejected) := t.bitmapFontCache.insert cacheKey bmf 1
    let t := { t with bitmapFontCache := cache }
    let t := if rejected then t.warning "bitmap font cache insert rejected" else t
    { t with bitmapFontC := upd t.bitmapFontC labelEID (some ⟨bmf⟩) }

/-- Source `addBitmapFontForLabel(labelEID)` — look up the queue entry, require the
`FontTable` and `Sprite` components to be present, compute the cache key from
the file/sprite paths; on a cache hit attach the shared font, mark the label
`Ready` and drop the queue entry; on a miss build the font, insert it into the
cache (logging a warning if the insert is rejected) and attach it. -/
def addBitmapFontForLabel (t : Factory) (labelEID : EID) : Factory :=
  match t.labelLoadQueue.lookup labelEID with
  | none => t
  | some entry =>
    if !((t.fontTableC entry.table).isSome && (t.spriteC entry.sprite).isSome) then t
    else
      match t.fileC entry.table with
      | none => t
      | some tableFile =>
        match t.spriteC entry.sprite with
        | none => t
        | some sprite =>
          let cacheKey := fontCacheKey tableFile.path sprite.spritePath sprite.palettePath
          match t.bitmapFontCache.retrieve cacheKey with
          | some f => t.attachCachedFont labelEID f
          | none => t.buildAndAttachFont labelEID entry cacheKey

/-- Source `processLabel(labelEID)` — if no `BitmapFont` component exists yet, try to
materialize one; otherwise bind the font's sprite to the renderer, refresh the
label's font reference, destroy the glyph-table entity recorded in the queue
entry, mark the label `Ready` and remove the queue entry. -/
def processLabel (t : Factory) (labelEID : EID) : Factory :=
  match t.bitmapFontC labelEID with
  | none => t.addBitmapFontForLabel labelEID
  | some bmfComponent =>
    let t := t.bindFont bmfComponent.font
    let label := (t.labelC labelEID).getD { text := "", font := none, dirty := false,
                                            backgroundColor := none }
    let t := { t with labelC := upd t.labelC labelEID
                        (some { label with font := some bmfComponent.font }) }
    let t := t.removeEntity ((t.labelLoadQueue.lookup labelEID).getD ⟨0, 0⟩).table
    let t := t.addReady labelEID
    { t with labelLoadQueue := eraseKey t.labelLoadQueue labelEID }

/-- Modelled from the spec: the external asset loader decodes the glyph-table
file of an entity into its `FontTable` component (spec §3: payloads are
"populated by external loaders"; readiness is signalled separately). -/
def loadFontTable (t : Factory) (e : EID) (data : Nat) : Factory :=
  { t with fontTableC := upd t.fontTableC e (some ⟨some data⟩) }

/-- Modelled from the spec: the sprite pipeline decodes the image of a sprite
entity into its `Sprite` component, keeping the recorded paths. -/
def loadSprite (t : Factory) (e : EID) (img : Nat) : Factory :=
  { t with spriteC := fun x => if x = e then (t.spriteC x).map (fun s => { s with sprite := some img })
                               else t.spriteC x }

/-- Modelled from the spec: an external pipeline (asset loader / sprite
factory) marks one of its entities `Ready`. -/
def markEntityReady (t : Factory) (e : EID) : Factory :=
  t.addReady e

end Factory

/-- Modelled from the spec: `d2resource.PaletteUnits`, the palette path used
for button labels. -/
def paletteUnits : String := "/data/global/palette/units/pal.dat"

/-- The Go zero value of a `d2components.Button`. -/
def defaultButton : ButtonC where
  layout := { spritePath := "", palettePath := "", fontPath := "", xSegments := 0,
              ySegments := 0, baseFrame := 0, disabledFrame := 0, hasImage := false,
              allowFrameChange := false }
  states := ⟨0, 0, 0, 0, 0⟩
  surfaces := ⟨none, none, none, none, none⟩
  sprite := none

/-- Modelled from the spec: the static `d2checkbox` layout defaults
(sprite sheet path, palette, segment grid). -/
def defaultCheckboxLayout : String × String × Nat × Nat × Int :=
  ("/data/global/ui/FrontEnd/clickbox.dc6", paletteUnits, 1, 1, 0)

namespace Factory

/-- Source `UIWidgetFactory.Button(x, y, btnType, text)` — allocate the button entity
with its layout (resolved externally by `d2button.GetLayout`, so the layout is
taken as the argument here) and position; create the label (or a placeholder
marked `Ready` when the layout has no font), request the base segmented
sprite, and queue the {label, sprite} pair. -/
def Button (t : Factory) (x y : Int) (layout : ButtonLayout) (text : String) : EID × Factory :=
  let (buttonEID, t) := t.newEntity
  let t := { t with buttonC := upd t.buttonC buttonEID (some { defaultButton with layout := layout }) }
  let t := { t with transformC := upd t.transformC buttonEID (some (x, y)) }
  let (labelEID, t) :=
    if layout.fontPath ≠ "" ∧ layout.palettePath ≠ "" then
      t.Label text layout.fontPath paletteUnits
    else
      let (e, t) := t.newEntity
      (e, t.addReady e)
  let (spriteEID, t) := t.segmentedSprite 0 0 layout.spritePath layout.palettePath
                          layout.xSegments layout.ySegments layout.baseFrame
  let t := { t with buttonLoadQueue :=
               t.buttonLoadQueue ++ [(buttonEID, ButtonEntry.mk labelEID spriteEID)] }
  (buttonEID, t)

/-- Source `renderButtonStates(buttonEID)` — the button receives `Ready` and leaves
the load queue exactly when all five of its state-sprite entities carry
`Ready`. -/
def renderButtonStates (t : Factory) (buttonEID : EID) : Factory :=
  let button := (t.buttonC buttonEID).getD defaultButton
  let ready := t.readyC button.states.normal && t.readyC button.states.pressed &&
               t.readyC button.states.toggled && t.readyC button.states.pressedToggled &&
               t.readyC button.states.disabled
  if !ready then t
  else
    let t := t.addReady buttonEID
    { t with buttonLoadQueue := eraseKey t.buttonLoadQueue buttonEID }

/-- The first-pass branch of `processButtonStates`: create the Normal state
sprite and let every other state alias it by default; with an image and frame
changes allowed, Pressed / Toggled / PressedToggled get offset frames and
Disabled gets its own frame unless the layout's disabled frame is the
`isNotSegmented` sentinel. -/
def createButtonStates (t : Factory) (buttonEID : EID) (button : ButtonC)
    (baseFrame : Int) : Factory :=
  let img := button.layout.spritePath
  let pal := button.layout.palettePath
  let sx := button.layout.xSegments
  let sy := button.layout.ySegments
  let (normal, t) := t.segmentedSprite 0 0 img pal sx sy baseFrame
  let states0 : ButtonStates := ⟨normal, normal, normal, normal, normal⟩
  let (states, t) :=
    if button.layout.hasImage && button.layout.allowFrameChange then
      let (pressed, t) := t.segmentedSprite 0 0 img pal sx sy (baseFrame + buttonStatePressed)
      let (toggled, t) := t.segmentedSprite 0 0 img pal sx sy (baseFrame + buttonStateToggled)
      let (ptog, t) := t.segmentedSprite 0 0 img pal sx sy (baseFrame + buttonStatePressedToggled)
      if button.layout.disabledFrame ≠ isNotSegmented then
        let (disabled, t) := t.segmentedSprite 0 0 img pal sx sy button.layout.disabledFrame
        (ButtonStates.mk normal pressed toggled ptog disabled, t)
      else
        (ButtonStates.mk normal pressed toggled ptog normal, t)
    else (states0, t)
  { t with buttonC := upd t.buttonC buttonEID (some { button with states := states }) }

/-- Source `processButtonStates(buttonEID)` — on the first pass (Normal still the
zero entity id) create the five state sprites via `createButtonStates`; on
later passes just re-check readiness via `renderButtonStates`.  (In the source
the button component is read with the found flag ignored; callers guarantee
presence, and the zero-valued button stands for the unreachable nil case.) -/
def processButtonStates (t : Factory) (buttonEID : EID) : Factory :=
  let button := (t.buttonC buttonEID).getD defaultButton
  let baseFrame := button.layout.baseFrame
  let hasBeenProcessed := button.states.normal > 0
  if hasBeenProcessed then t.renderButtonStates buttonEID
  else t.createButtonStates buttonEID button baseFrame

/-- The body of `processButton` once both prerequisites are `Ready`: ensure
the button component exists, attach the sprite image, and link sprite and
label as scene-graph children of the button. -/
def attachButtonVisuals (t : Factory) (buttonEID : EID) (entry : ButtonEntry) : Factory :=
  let t := if (t.buttonC buttonEID).isSome then t
           else { t with buttonC := upd t.buttonC buttonEID (some defaultButton) }
  let t := { t with nodeC := upd t.nodeC buttonEID (some ⟨none⟩) }
  let t :=
    match t.spriteC entry.sprite with
    | some sprite =>
      let button := (t.buttonC buttonEID).getD defaultButton
      let t := { t with buttonC := upd t.buttonC buttonEID
                          (some { button with sprite := sprite.sprite }) }
      { t with nodeC := upd t.nodeC entry.sprite (some ⟨some buttonEID⟩) }
    | none => t
  if (t.labelC entry.label).isSome
  then { t with nodeC := upd t.nodeC entry.label (some ⟨some buttonEID⟩) }
  else t

/-- Source `processButton(buttonEID)` — wait until the queued label and sprite
entities carry `Ready`; then attach the sprite image, link sprite and label as
scene-graph children of the button, and drive state construction. -/
def processButton (t : Factory) (buttonEID : EID) : Factory :=
  match t.buttonLoadQueue.lookup buttonEID with
  | none => t
  | some entry =>
    let labelReady := t.readyC entry.label
    let spriteReady := t.readyC entry.sprite
    if !(labelReady && spriteReady) then t
    else (t.attachButtonVisuals buttonEID entry).processButtonStates buttonEID

/-- Source `updateButton(buttonEID)` — once all five state entities have `Texture`
components, copy their surfaces into the button and refresh the button's own
texture (`GetCurrentTexture` is external `d2button` logic, modelled as the
surface of the current — normal — state). -/
def updateButton (t : Factory) (buttonEID : EID) : Factory :=
  match t.buttonC buttonEID with
  | none => t
  | some button =>
    match t.textureC button.states.normal, t.textureC button.states.pressed,
          t.textureC button.states.toggled, t.textureC button.states.pressedToggled,
          t.textureC button.states.disabled with
    | some n, some p, some tg, some pt, some d =>
      let button := { button with surfaces :=
                        ⟨n.texture, p.texture, tg.texture, pt.texture, d.texture⟩ }
      let t := { t with buttonC := upd t.buttonC buttonEID (some button) }
      { t with textureC := upd t.textureC buttonEID (some ⟨button.surfaces.normal⟩) }
    | _, _, _, _, _ => t

/-- Source `UIWidgetFactory.Checkbox(x, y, checkedState, enabled, callback)` —
allocate the checkbox with its static layout and position, record the initial
pressed/enabled flags (the callback closure is opaque and held by the logic
object), request the segmented sprite, and queue it. -/
def Checkbox (t : Factory) (x y : Int) (checkedState enabled : Bool) : EID × Factory :=
  let (checkboxEID, t) := t.newEntity
  let cb : CheckboxC := { spritePath := defaultCheckboxLayout.1,
                          palettePath := defaultCheckboxLayout.2.1,
                          pressed := checkedState, enabled := enabled, sprite := none }
  let t := { t with checkboxC := upd t.checkboxC checkboxEID (some cb) }
  let t := { t with transformC := upd t.transformC checkboxEID (some (x, y)) }
  let (spriteEID, t) := t.segmentedSprite x y cb.spritePath cb.palettePath
                          defaultCheckboxLayout.2.2.1 defaultCheckboxLayout.2.2.2.1
                          defaultCheckboxLayout.2.2.2.2
  let t := { t with checkboxLoadQueue :=
               t.checkboxLoadQueue ++ [(checkboxEID, CheckboxEntry.mk spriteEID)] }
  (checkboxEID, t)

/-- The Go zero value of a `d2components.Checkbox`. -/
def defaultCheckbox : CheckboxC :=
  { spritePath := "", palettePath := "", pressed := false, enabled := false, sprite := none }

/-- Source `processCheckbox(checkboxEID)` — wait until the queued sprite entity
carries `Ready`; then link the sprite as a scene-graph child, attach the
interactive descriptor, attach an (empty) `Texture` component, mark the
checkbox `Ready` and remove the queue entry. -/
def processCheckbox (t : Factory) (checkboxEID : EID) : Factory :=
  match t.checkboxLoadQueue.lookup checkboxEID with
  | none => t
  | some entry =>
    if !(t.readyC entry.sprite) then t
    else
      let t := if (t.checkboxC checkboxEID).isSome then t
               else { t with checkboxC := upd t.checkboxC checkboxEID (some defaultCheckbox) }
      let t := { t with nodeC := upd t.nodeC checkboxEID (some ⟨none⟩) }
      let t :=
        match t.spriteC entry.sprite with
        | some sprite =>
          let cb := (t.checkboxC checkboxEID).getD defaultCheckbox
          let t := { t with checkboxC := upd t.checkboxC checkboxEID
                              (some { cb with sprite := sprite.sprite }) }
          { t with nodeC := upd t.nodeC entry.sprite (some ⟨some checkboxEID⟩) }
        | none => t
      let t := { t with interactiveC := updB t.interactiveC checkboxEID true }
      let t := { t with textureC := upd t.textureC checkboxEID (some ⟨none⟩) }
      let t := t.addReady checkboxEID
      { t with checkboxLoadQueue := eraseKey t.checkboxLoadQueue checkboxEID }

/-- Source `updateCheckbox(checkboxEID)` — run the checkbox logic update, then write
the sprite's current frame surface through the `Texture` component pointer.
The source reads the texture with the found flag deliberately ignored; `none`
models the nil-pointer fault that the write would be if the component were
missing. -/
def updateCheckbox (t : Factory) (checkboxEID : EID) : Option Factory :=
  match t.checkboxC checkboxEID with
  | none => some t
  | some checkbox =>
    match t.textureC checkboxEID with
    | none => none
    | some _ => some { t with textureC := upd t.textureC checkboxEID (some ⟨checkbox.sprite⟩) }

/-- Source `updateLabel(labelEID)` — refresh the label's font reference and
background color and, when dirty, render it to a fresh surface
(`renderer.NewSurface` allocates surface handles; `label.Render` is external
and modelled as drawing and clearing the dirty flag). -/
def updateLabel (t : Factory) (labelEID : EID) : Factory :=
  match t.labelC labelEID with
  | none => t
  | some label0 =>
    match t.bitmapFontC labelEID with
    | none => t
    | some bmf =>
      let label := if label0.font ≠ some bmf.font then { label0 with font := some bmf.font }
                   else label0
      let t := { t with labelC := upd t.labelC labelEID (some label) }
      let (label, t) :=
        match t.colorC labelEID with
        | some col =>
          let l := { label with backgroundColor := some col }
          (l, { t with labelC := upd t.labelC labelEID (some l) })
        | none => (label, t)
      if !label.dirty then t
      else
        let surf := t.nextSurface
        let t := { t with nextSurface := surf + 1 }
        let t := { t with textureC := upd t.textureC labelEID (some ⟨some surf⟩) }
        { t with labelC := upd t.labelC labelEID (some { label with dirty := false }) }

/-- Entities of the world matching a component filter (the subscription's
`GetEntities()`). -/
def entitiesWith (t : Factory) (p : EID → Bool) : List EID :=
  (List.range t.nextEntity).filter p

/-- The `labelsToUpdate` subscription: entities with `Label` and `Ready`. -/
def labelsToUpdate (t : Factory) : List EID :=
  t.entitiesWith (fun e => (t.labelC e).isSome && t.readyC e)

/-- The `buttonsToUpdate` subscription: entities with `Button` and `Ready`. -/
def buttonsToUpdate (t : Factory) : List EID :=
  t.entitiesWith (fun e => (t.buttonC e).isSome && t.readyC e)

/-- The `checkboxesToUpdate` subscription: entities with `Checkbox` and `Ready`. -/
def checkboxesToUpdate (t : Factory) : List EID :=
  t.entitiesWith (fun e => (t.checkboxC e).isSome && t.readyC e)

end Factory

/-- The running state of one `Update` tick: the factory, the wall time elapsed
since `start := time.Now()` (work units are the only time consumers), the
index of the next unit of work, and whether the tick has `return`ed. -/
structure TickRun where
  fac : Factory
  elapsed : Nat
  unitIdx : Nat
  returned : Bool

/-- One of the six loops of `Update`: before each unit of work the elapsed
time is compared against the ceiling (`time.Since(start) > maxTimePerUpdate`),
and exceeding it returns from the whole tick; otherwise the unit is processed
and its wall-time cost (given by the cost oracle) accrues. -/
def runLoop (process : Factory → EID → Factory) (cost : Nat → Nat) (ceiling : Nat) :
    List EID → TickRun → TickRun
  | [], r => r
  | e :: rest, r =>
    if r.returned then r
    else if r.elapsed > ceiling then { r with returned := true }
    else runLoop process cost ceiling rest
           { fac := process r.fac e, elapsed := r.elapsed + cost r.unitIdx,
             unitIdx := r.unitIdx + 1, returned := false }

namespace Factory

/-- Source `UIWidgetFactory.Update()` — before boot, only re-run the boot check;
once booted, drain the three load queues and then update the Ready widgets,
under the per-tick time ceiling (`maxTimePerUpdate`, defined outside this
file's source, is kept abstract).  `cost n` is the wall-time cost of the n-th
unit of work; the returned number is the elapsed time when the tick ends.
(The checkbox update's nil-texture fault branch is unreachable — see the
texture-before-Ready invariant — and is skipped here.) -/
def updateTimed (cost : Nat → Nat) (ceiling : Nat) (t : Factory) : Factory × Nat :=
  if t.state ≠ .booted then (t.boot, 0)
  else
    let r0 : TickRun := ⟨t, 0, 0, false⟩
    let r1 := runLoop processButton cost ceiling (r0.fac.buttonLoadQueue.map Prod.fst) r0
    let r2 := runLoop processCheckbox cost ceiling (r1.fac.checkboxLoadQueue.map Prod.fst) r1
    let r3 := runLoop processLabel cost ceiling (r2.fac.labelLoadQueue.map Prod.fst) r2
    let r4 := runLoop updateButton cost ceiling r3.fac.buttonsToUpdate r3
    let r5 := runLoop (fun f e => (f.updateCheckbox e).getD f) cost ceiling
                r4.fac.checkboxesToUpdate r4
    let r6 := runLoop updateLabel cost ceiling r5.fac.labelsToUpdate r5
    (r6.fac, r6.elapsed)

/-- Source `Update` with every unit of work instantaneous: the ceiling is never
exceeded and every pending unit is processed. -/
def Update (t : Factory) : Factory :=
  (updateTimed (fun _ => 0) 0 t).1

end Factory

/-! ## General lemmas about the embedding -/

namespace Factory

lemma upd_self {C : Type} (m : EID → Option C) (e : EID) (v : Option C) : upd m e v e = v := by
  simp [upd]

lemma updB_self (m : EID → Bool) (e : EID) (v : Bool) : updB m e v e = v := by
  simp [updB]

lemma updB_mono {m : EID → Bool} {e x : EID} (h : m x = true) : updB m e true x = true := by
  simp [updB]
  exact Or.inr h

lemma lookup_eraseKey {E : Type} (q : List (EID × E)) (e : EID) :
    (eraseKey q e).lookup e = none := by
  induction q with
  | nil => rfl
  | cons kv rest ih =>
    by_cases h : kv.1 = e
    · simpa [eraseKey, h] using ih
    · simpa [eraseKey, List.filter_cons, h, List.lookup_cons, Ne.symm h,
             beq_false_of_ne (Ne.symm h)] using ih

lemma readyC_attachButtonVisuals (t : Factory) (e : EID) (entry : ButtonEntry) :
    (t.attachButtonVisuals e entry).readyC = t.readyC := by
  unfold attachButtonVisuals
  dsimp only
  split <;> split <;> split <;> rfl

lemma buttonC_attachButtonVisuals_isSome (t : Factory) (e : EID) (entry : ButtonEntry) :
    ((t.attachButtonVisuals e entry).buttonC e).isSome = true := by
  unfold attachButtonVisuals
  dsimp only
  split <;> split <;> split <;> simp_all [upd]

lemma readyC_createButtonStates (t : Factory) (e : EID) (b : ButtonC) (bf : Int) :
    (t.createButtonStates e b bf).readyC = t.readyC := by
  unfold createButtonStates segmentedSprite sprite newEntity
  dsimp only
  split <;> (try split) <;> rfl

end Factory

/-! ## Claim theorems -/

open Factory

/-- C2: for every button entity, the `Ready` marker is added to the button
(and its load-queue entry removed) only after all five of its state-sprite
entities — Normal, Pressed, Toggled, PressedToggled, and Disabled — carry the
`Ready` marker: whenever a `processButton` step turns a non-`Ready` button
`Ready`, all five state-sprite entities recorded in the button's component
carry `Ready` in the resulting state (having already carried it at the check)
and the button's load-queue entry is gone. -/
theorem C2_button_ready_only_after_five_states (t : Factory) (e : EID)
    (h0 : t.readyC e = false) (h1 : (t.processButton e).readyC e = true) :
    ∃ b, (t.processButton e).buttonC e = some b ∧
      (t.processButton e).readyC b.states.normal = true ∧
      (t.processButton e).readyC b.states.pressed = true ∧
      (t.processButton e).readyC b.states.toggled = true ∧
      (t.processButton e).readyC b.states.pressedToggled = true ∧
      (t.processButton e).readyC b.states.disabled = true ∧
      (t.processButton e).buttonLoadQueue.lookup e = none := by
  cases heq : t.buttonLoadQueue.lookup e with
  | none =>
    rw [processButton, heq] at h1
    exact absurd h1 (by simp [h0])
  | some entry =>
    simp only [processButton, heq] at h1 ⊢
    by_cases hrdy : (!(t.readyC entry.label && t.readyC entry.sprite)) = true
    · rw [if_pos hrdy] at h1; exact absurd h1 (by simp [h0])
    · rw [if_neg hrdy] at h1 ⊢
      set t1 := t.attachButtonVisuals e entry with ht1
      have hrdy1 : t1.readyC = t.readyC := readyC_attachButtonVisuals t e entry
      obtain ⟨b1, hb1⟩ : ∃ b1, t1.buttonC e = some b1 := by
        have := buttonC_attachButtonVisuals_isSome t e entry
        rw [← ht1] at this
        exact Option.isSome_iff_exists.mp this
      simp only [processButtonStates] at h1 ⊢
      rw [hb1] at h1 ⊢
      simp only [Option.getD] at h1 ⊢
      by_cases hproc : b1.states.normal > 0
      · rw [if_pos (by simpa using hproc)] at h1 ⊢
        simp only [renderButtonStates] at h1 ⊢
        rw [hb1] at h1 ⊢
        simp only [Option.getD] at h1 ⊢
        by_cases hready : (!(t1.readyC b1.states.normal && t1.readyC b1.states.pressed &&
            t1.readyC b1.states.toggled && t1.readyC b1.states.pressedToggled &&
            t1.readyC b1.states.disabled)) = true
        · rw [if_pos hready] at h1
          rw [hrdy1] at h1
          exact absurd h1 (by simp [h0])
        · rw [if_neg hready] at h1 ⊢
          simp only [Bool.not_eq_true, Bool.not_eq_false', Bool.and_eq_true] at hready
          refine ⟨b1, ?_, ?_, ?_, ?_, ?_, ?_, ?_⟩
          · simpa [addReady] using hb1
          · simpa [addReady] using updB_mono hready.1.1.1.1
          · simpa [addReady] using updB_mono hready.1.1.1.2
          · simpa [addReady] using updB_mono hready.1.1.2
          · simpa [addReady] using updB_mono hready.1.2
          · simpa [addReady] using updB_mono hready.2
          · simpa [addReady] using lookup_eraseKey t1.buttonLoadQueue e
      · rw [if_neg (by simpa using hproc)] at h1
        rw [readyC_createButtonStates, hrdy1] at h1
        exact absurd h1 (by simp [h0])

/-- A concrete booted factory with one queued button whose prerequisites and
whose five (already created) state sprites are all `Ready`. -/
def c2State : Factory :=
  { (newUIWidgetFactory (some ⟨some 1⟩)).boot with
    buttonC := upd (fun _ => none) 10 (some { defaultButton with states := ⟨13, 13, 13, 13, 13⟩ })
    readyC := fun e => e == 11 || e == 12 || e == 13
    buttonLoadQueue := [(10, ⟨11, 12⟩)] }

/-- Witness for C2 at a concrete input. -/
theorem C2_witness :
    ∃ b, (c2State.processButton 10).buttonC 10 = some b ∧
      (c2State.processButton 10).readyC b.states.normal = true ∧
      (c2State.processButton 10).readyC b.states.pressed = true ∧
      (c2State.processButton 10).readyC b.states.toggled = true ∧
      (c2State.processButton 10).readyC b.states.pressedToggled = true ∧
      (c2State.processButton 10).readyC b.states.disabled = true ∧
      (c2State.processButton 10).buttonLoadQueue.lookup 10 = none :=
  C2_button_ready_only_after_five_states c2State 10 (by decide) (by decide)

/-- C4: for every button whose layout's disabled-frame index equals the
reserved sentinel (`isNotSegmented`), after state-sprite construction the
Disabled state entity identifier equals the Normal state entity identifier
(the same entity); and if the layout has no image or does not allow frame
changes, all four non-Normal state entities equal the Normal state entity. -/
theorem C4_disabled_sentinel_aliases_normal (t : Factory) (e : EID) (b : ButtonC)
    (hb : t.buttonC e = some b) (hfirst : ¬ b.states.normal > 0) :
    ∃ b', (t.processButtonStates e).buttonC e = some b' ∧
      (b.layout.disabledFrame = isNotSegmented → b'.states.disabled = b'.states.normal) ∧
      ((b.layout.hasImage = false ∨ b.layout.allowFrameChange = false) →
        b'.states.pressed = b'.states.normal ∧ b'.states.toggled = b'.states.normal ∧
        b'.states.pressedToggled = b'.states.normal ∧ b'.states.disabled = b'.states.normal) := by
  simp only [processButtonStates]
  rw [hb]
  simp only [Option.getD]
  rw [if_neg (by simpa using hfirst)]
  unfold createButtonStates
  dsimp only
  by_cases himg : (b.layout.hasImage && b.layout.allowFrameChange) = true
  · rw [if_pos himg]
    by_cases hdis : b.layout.disabledFrame ≠ isNotSegmented
    · rw [if_pos hdis]
      refine ⟨_, upd_self _ _ _, ?_, ?_⟩
      · intro h; exact absurd h hdis
      · intro h
        rcases h with h | h <;> simp [h] at himg
    · rw [if_neg hdis]
      refine ⟨_, upd_self _ _ _, ?_, ?_⟩
      · intro _; rfl
      · intro h
        rcases h with h | h <;> simp [h] at himg
  · rw [if_neg himg]
    exact ⟨_, upd_self _ _ _, fun _ => rfl, fun _ => ⟨rfl, rfl, rfl, rfl⟩⟩

/-- A concrete button whose layout has the `isNotSegmented` disabled frame and
no image. -/
def c4Button : ButtonC :=
  { defaultButton with layout := { defaultButton.layout with disabledFrame := isNotSegmented } }

/-- A concrete factory holding `c4Button`, not yet state-processed. -/
def c4State : Factory :=
  { newUIWidgetFactory none with buttonC := upd (fun _ => none) 5 (some c4Button) }

/-- Witness for C4 at a concrete input. -/
theorem C4_witness :
    ∃ b', (c4State.processButtonStates 5).buttonC 5 = some b' ∧
      (c4Button.layout.disabledFrame = isNotSegmented → b'.states.disabled = b'.states.normal) ∧
      ((c4Button.layout.hasImage = false ∨ c4Button.layout.allowFrameChange = false) →
        b'.states.pressed = b'.states.normal ∧ b'.states.toggled = b'.states.normal ∧
        b'.states.pressedToggled = b'.states.normal ∧ b'.states.disabled = b'.states.normal) :=
  C4_disabled_sentinel_aliases_normal c4State 5 c4Button (by decide) (by decide)

lemma runLoop_elapsed_le (p : Factory → EID → Factory) (cost : Nat → Nat) (ceiling B : Nat)
    (hc : ∀ i, cost i ≤ B) :
    ∀ (l : List EID) (r : TickRun), r.elapsed ≤ ceiling + B →
      (runLoop p cost ceiling l r).elapsed ≤ ceiling + B := by
  intro l
  induction l with
  | nil => intro r h; exact h
  | cons e rest ih =>
    intro r h
    unfold runLoop
    split
    · exact h
    · split
      · exact h
      · next hover =>
        exact ih _ (Nat.add_le_add (Nat.le_of_not_lt hover) (hc r.unitIdx))

lemma runLoop_stops_when_over (p : Factory → EID → Factory) (cost : Nat → Nat) (ceiling : Nat) :
    ∀ (l : List EID) (r : TickRun), r.elapsed > ceiling →
      (runLoop p cost ceiling l r).fac = r.fac ∧
      (runLoop p cost ceiling l r).elapsed = r.elapsed := by
  intro l
  cases l with
  | nil => intro r _; exact ⟨rfl, rfl⟩
  | cons e rest =>
    intro r hover
    simp only [runLoop]
    by_cases hret : r.returned = true
    · rw [if_pos hret]; exact ⟨rfl, rfl⟩
    · rw [if_neg hret, if_pos hover]; exact ⟨rfl, rfl⟩

lemma runLoop_returned (p : Factory → EID → Factory) (cost : Nat → Nat) (ceiling : Nat) :
    ∀ (l : List EID) (r : TickRun), r.returned = true → runLoop p cost ceiling l r = r := by
  intro l
  cases l with
  | nil => intro r _; rfl
  | cons e rest =>
    intro r hret
    unfold runLoop
    rw [if_pos hret]

/-- C6: in every tick of the `Update` loop, the elapsed time since tick start
is compared against the fixed ceiling before each individual unit of work, and
exceeding the ceiling immediately ends the tick without processing any
further unit — once the tick has returned, or once the elapsed time is over
the ceiling, no later loop touches the factory; hence the tick's total
elapsed time is at most `ceiling + B` when each unit of work costs at most
`B`. -/
theorem C6_tick_budget_overshoot_bounded (cost : Nat → Nat) (ceiling B : Nat) (t : Factory)
    (hc : ∀ i, cost i ≤ B) :
    (Factory.updateTimed cost ceiling t).2 ≤ ceiling + B ∧
    (∀ (p : Factory → EID → Factory) (l : List EID) (r : TickRun), r.elapsed > ceiling →
       r.returned = false →
       (runLoop p cost ceiling l r).fac = r.fac ∧
       (runLoop p cost ceiling l r).elapsed = r.elapsed) ∧
    (∀ (p : Factory → EID → Factory) (l : List EID) (r : TickRun), r.returned = true →
       runLoop p cost ceiling l r = r) := by
  refine ⟨?_, fun p l r hover _ => runLoop_stops_when_over p cost ceiling l r hover,
          fun p l r h => runLoop_returned p cost ceiling l r h⟩
  unfold Factory.updateTimed
  split
  · exact Nat.zero_le _
  · dsimp only
    apply runLoop_elapsed_le _ _ _ _ hc
    apply runLoop_elapsed_le _ _ _ _ hc
    apply runLoop_elapsed_le _ _ _ _ hc
    apply runLoop_elapsed_le _ _ _ _ hc
    apply runLoop_elapsed_le _ _ _ _ hc
    apply runLoop_elapsed_le _ _ _ _ hc
    exact Nat.zero_le _

/-- Witness for C6 at a concrete input: unit-cost work, ceiling 5. -/
theorem C6_witness :
    (Factory.updateTimed (fun _ => 1) 5 (newUIWidgetFactory none)).2 ≤ 5 + 1 :=
  (C6_tick_budget_overshoot_bounded (fun _ => 1) 5 1 (newUIWidgetFactory none)
    (fun _ => Nat.le_refl 1)).1

namespace Factory

lemma state_attachButtonVisuals (t : Factory) (e : EID) (entry : ButtonEntry) :
    (t.attachButtonVisuals e entry).state = t.state := by
  unfold attachButtonVisuals; dsimp only; split <;> split <;> split <;> rfl

lemma state_createButtonStates (t : Factory) (e : EID) (b : ButtonC) (bf : Int) :
    (t.createButtonStates e b bf).state = t.state := by
  unfold createButtonStates segmentedSprite sprite newEntity; dsimp only
  split <;> (try split) <;> rfl

lemma state_renderButtonStates (t : Factory) (e : EID) :
    (t.renderButtonStates e).state = t.state := by
  unfold renderButtonStates addReady; dsimp only; split <;> rfl

lemma state_processButtonStates (t : Factory) (e : EID) :
    (t.processButtonStates e).state = t.state := by
  unfold processButtonStates; dsimp only
  split
  · exact state_renderButtonStates t e
  · exact state_createButtonStates t e _ _

lemma state_processButton (t : Factory) (e : EID) :
    (t.processButton e).state = t.state := by
  unfold processButton; dsimp only
  split
  · rfl
  · split
    · rfl
    · rw [state_processButtonStates, state_attachButtonVisuals]

lemma state_processCheckbox (t : Factory) (e : EID) :
    (t.processCheckbox e).state = t.state := by
  unfold processCheckbox addReady; dsimp only
  split
  · rfl
  · split
    · rfl
    · split <;> split <;> rfl

lemma state_createBitmapFont (t : Factory) (entry : LabelEntry) :
    (t.createBitmapFont entry).2.state = t.state := by
  unfold createBitmapFont; dsimp only
  split <;> (try split) <;> rfl

lemma state_attachCachedFont (t : Factory) (e : EID) (f : FontId) :
    (t.attachCachedFont e f).state = t.state := by
  unfold attachCachedFont addReady; rfl

lemma state_buildAndAttachFont (t : Factory) (e : EID) (entry : LabelEntry) (k : String) :
    (t.buildAndAttachFont e entry k).state = t.state := by
  unfold buildAndAttachFont; dsimp only
  split
  · next heq => have := state_createBitmapFont t entry; rw [heq] at this; exact this
  · next bmf t2 heq =>
    have := state_createBitmapFont t entry
    rw [heq] at this
    dsimp only at this ⊢
    split <;> exact this

lemma state_addBitmapFontForLabel (t : Factory) (e : EID) :
    (t.addBitmapFontForLabel e).state = t.state := by
  unfold addBitmapFontForLabel; dsimp only
  split
  · rfl
  · split
    · rfl
    · split
      · rfl
      · split
        · rfl
        · split
          · exact state_attachCachedFont t e _
          · exact state_buildAndAttachFont t e _ _

lemma state_processLabel (t : Factory) (e : EID) :
    (t.processLabel e).state = t.state := by
  unfold processLabel bindFont removeEntity addReady; dsimp only
  split
  · exact state_addBitmapFontForLabel t e
  · rfl

lemma state_updateButton (t : Factory) (e : EID) :
    (t.updateButton e).state = t.state := by
  unfold updateButton; dsimp only
  split
  · rfl
  · split <;> rfl

lemma state_updateCheckbox (t : Factory) (e : EID) :
    ((t.updateCheckbox e).getD t).state = t.state := by
  unfold updateCheckbox
  split
  · rfl
  · split <;> rfl

lemma state_updateLabel (t : Factory) (e : EID) :
    (t.updateLabel e).state = t.state := by
  unfold updateLabel; dsimp only
  split
  · rfl
  · split
    · rfl
    · cases hcol : t.colorC e <;>
        (dsimp only; rw [apply_ite Factory.state, ite_self])

lemma state_runLoop (p : Factory → EID → Factory) (cost : Nat → Nat) (ceiling : Nat)
    (hp : ∀ f e, (p f e).state = f.state) :
    ∀ (l : List EID) (r : TickRun), (runLoop p cost ceiling l r).fac.state = r.fac.state := by
  intro l
  induction l with
  | nil => intro r; rfl
  | cons e rest ih =>
    intro r
    unfold runLoop
    split
    · rfl
    · split
      · rfl
      · rw [ih]; exact hp r.fac e

end Factory

/-- C9: the factory's state starts `Uninitialized`; before boot, `Update` is
exactly the boot re-check (no queue processing); `boot` transitions to
`Booted` precisely when the render-system collaborator exists with a non-null
renderer and otherwise leaves the factory unchanged; and once `Booted` the
state never leaves `Booted` under `boot` or `Update` (the transition is
terminal). -/
theorem C9_boot_state_machine :
    (∀ rs, (newUIWidgetFactory rs).state = SceneState.uninitialized) ∧
    (∀ t : Factory, t.state ≠ SceneState.booted → t.Update = t.boot) ∧
    (∀ (t : Factory) (rs : RenderSys) (r : Nat),
       t.renderSystem = some rs → rs.renderer = some r →
       (t.boot).state = SceneState.booted) ∧
    (∀ t : Factory,
       (t.renderSystem = none ∨ ∃ rs, t.renderSystem = some rs ∧ rs.renderer = none) →
       t.boot = t) ∧
    (∀ t : Factory, t.state = SceneState.booted → (t.boot).state = SceneState.booted) ∧
    (∀ (t : Factory) (cost : Nat → Nat) (ceiling : Nat), t.state = SceneState.booted →
       ((Factory.updateTimed cost ceiling t).1).state = SceneState.booted) := by
  refine ⟨fun _ => rfl, ?_, ?_, ?_, ?_, ?_⟩
  · intro t h
    unfold Factory.Update Factory.updateTimed
    rw [if_pos h]
  · intro t rs r hrs hr
    unfold Factory.boot
    rw [hrs]
    dsimp only
    rw [hr]
  · intro t h
    unfold Factory.boot
    rcases h with h | ⟨rs, hrs, hr⟩
    · rw [h]
    · rw [hrs]; dsimp only; rw [hr]
  · intro t h
    unfold Factory.boot
    cases hrs : t.renderSystem with
    | none => exact h
    | some rs =>
      dsimp only
      cases hr : rs.renderer with
      | none => exact h
      | some r => rfl
  · intro t cost ceiling h
    unfold Factory.updateTimed
    rw [if_neg (by simp [h])]
    dsimp only
    rw [state_runLoop _ _ _ state_updateLabel,
        state_runLoop _ _ _ (fun f e => state_updateCheckbox f e),
        state_runLoop _ _ _ state_updateButton,
        state_runLoop _ _ _ state_processLabel,
        state_runLoop _ _ _ state_processCheckbox,
        state_runLoop _ _ _ state_processButton]
    exact h

/-- Witness for C9 at a concrete input: an unbooted factory's tick is exactly
the boot check. -/
theorem C9_witness : (newUIWidgetFactory none).Update = (newUIWidgetFactory none).boot :=
  C9_boot_state_machine.2.1 (newUIWidgetFactory none) (by decide)

/-- The safety invariant behind `updateCheckbox`: every `Ready` checkbox
entity has a `Texture` component. -/
def checkboxTextureInv (t : Factory) : Prop :=
  ∀ x, (t.checkboxC x).isSome = true → t.readyC x = true → (t.textureC x).isSome = true

/-- C10: every checkbox entity that receives the `Ready` marker through
`processCheckbox` also has a `Texture` component attached (it is added before
the marker); `processCheckbox` preserves the texture-before-Ready invariant;
and under that invariant, for every entity in the (Checkbox, Ready)
subscription, `updateCheckbox`'s texture lookup — whose found flag the source
ignores — succeeds, so the write through the texture pointer never faults. -/
theorem C10_checkbox_texture_before_ready :
    (∀ (t : Factory) (e : EID), t.readyC e = false →
       (t.processCheckbox e).readyC e = true →
       ((t.processCheckbox e).textureC e).isSome = true) ∧
    (∀ (t : Factory) (e : EID), checkboxTextureInv t →
       checkboxTextureInv (t.processCheckbox e)) ∧
    (∀ (t : Factory) (e : EID), checkboxTextureInv t → e ∈ t.checkboxesToUpdate →
       (t.updateCheckbox e).isSome = true) := by
  refine ⟨?_, ?_, ?_⟩
  · intro t e h0 h1
    cases heq : t.checkboxLoadQueue.lookup e with
    | none => rw [processCheckbox, heq] at h1; exact absurd h1 (by simp [h0])
    | some entry =>
      simp only [processCheckbox, heq] at h1 ⊢
      by_cases hrdy : (!t.readyC entry.sprite) = true
      · rw [if_pos hrdy] at h1; exact absurd h1 (by simp [h0])
      · rw [if_neg hrdy] at h1 ⊢
        dsimp only
        split <;> simp [addReady, upd, updB]
  · intro t e hInv
    intro x hcb hrdy
    cases heq : t.checkboxLoadQueue.lookup e with
    | none =>
      rw [processCheckbox, heq] at hcb hrdy ⊢
      exact hInv x hcb hrdy
    | some entry =>
      simp only [processCheckbox, heq] at hcb hrdy ⊢
      by_cases hsp : (!t.readyC entry.sprite) = true
      · rw [if_pos hsp] at hcb hrdy ⊢
        exact hInv x hcb hrdy
      · rw [if_neg hsp] at hcb hrdy ⊢
        by_cases hx : x = e
        · subst hx
          dsimp only at hcb hrdy ⊢
          split <;> simp [addReady, upd, updB]
        · dsimp only at hcb hrdy ⊢
          revert hcb hrdy
          split <;> split <;>
            (intro hcb hrdy
             simp only [addReady, upd, updB, hx, if_false] at hcb hrdy ⊢
             exact hInv x hcb hrdy)
  · intro t e hInv hmem
    have hprops : (t.checkboxC e).isSome = true ∧ t.readyC e = true := by
      simp only [checkboxesToUpdate, entitiesWith, List.mem_filter] at hmem
      have := hmem.2
      simp only [Bool.and_eq_true] at this
      exact this
    have htex := hInv e hprops.1 hprops.2
    unfold updateCheckbox
    cases hcb : t.checkboxC e with
    | none => rfl
    | some cb =>
      dsimp only
      cases htx : t.textureC e with
      | none => rw [htx] at htex; exact absurd htex (by simp)
      | some _ => rfl

/-- A concrete factory with one queued checkbox whose sprite prerequisite is
`Ready`. -/
def c10State : Factory :=
  { newUIWidgetFactory none with
    checkboxLoadQueue := [(7, ⟨8⟩)]
    readyC := fun e => e == 8 }

/-- Witness for C10 at a concrete input. -/
theorem C10_witness : ((c10State.processCheckbox 7).textureC 7).isSome = true :=
  C10_checkbox_texture_before_ready.1 c10State 7 (by decide) (by decide)

/-- The §8 scenario: create a label with the given text, font path and palette
path on a booted factory, let the loader decode the glyph table (entity 2) and
the sprite (entity 3), and run the label's processing step once. -/
def c7Run (text F P : String) : Factory :=
  ((((newUIWidgetFactory (some ⟨some 0⟩)).boot.Label text F P).2.loadFontTable 2 0).loadSprite
      3 0).processLabel 1

/-- C7: the bitmap-font cache key for a label created with font path `F` and
palette path `P` is exactly the concatenation of the glyph-table path
(`F` + ".tbl"), the sprite path (`F` + ".dc6") and `P`, and under that key the
built `BitmapFont` is stored (the first built font, id 0, is attached to the
label and the label becomes `Ready` on the following tick); for the §8
scenario the stored key is the literal string `"F.tbl::F.dc6::P"`. -/
theorem C7_font_cache_key (text F P : String) :
    (c7Run text F P).bitmapFontCache.retrieve (fontCacheKey (F ++ ".tbl") (F ++ ".dc6") P)
        = some 0 ∧
    (c7Run text F P).bitmapFontC 1 = some ⟨0⟩ ∧
    ((c7Run text F P).processLabel 1).readyC 1 = true ∧
    (∀ a b c : String, fontCacheKey a b c = a ++ "::" ++ b ++ "::" ++ c) ∧
    (c7Run "Test" "F" "P").bitmapFontCache.retrieve "F.tbl::F.dc6::P" = some 0 := by
  refine ⟨?_, ?_, ?_, fun a b c => rfl, by decide⟩
  · simp [c7Run, newUIWidgetFactory, boot, Label, newEntity, sprite, loadFontTable, loadSprite,
          processLabel, addBitmapFontForLabel, attachCachedFont, buildAndAttachFont,
          createBitmapFont, Cache.retrieve, Cache.insert, Cache.weight, createCache,
          fontCacheBudget, upd, updB, addReady, warning, bindFont, removeEntity, eraseKey,
          List.lookup]
  · simp [c7Run, newUIWidgetFactory, boot, Label, newEntity, sprite, loadFontTable, loadSprite,
          processLabel, addBitmapFontForLabel, attachCachedFont, buildAndAttachFont,
          createBitmapFont, Cache.retrieve, Cache.insert, Cache.weight, createCache,
          fontCacheBudget, upd, updB, addReady, warning, bindFont, removeEntity, eraseKey,
          List.lookup]
  · simp [c7Run, newUIWidgetFactory, boot, Label, newEntity, sprite, loadFontTable, loadSprite,
          processLabel, addBitmapFontForLabel, attachCachedFont, buildAndAttachFont,
          createBitmapFont, Cache.retrieve, Cache.insert, Cache.weight, createCache,
          fontCacheBudget, upd, updB, addReady, warning, bindFont, removeEntity, eraseKey,
          List.lookup]

/-- C8: when the cache rejects the insert of a newly built font (the budget is
exceeded), the error is logged as a non-fatal warning and the font object is
nevertheless attached to the requesting label's `BitmapFont` component, while
the cache is left unchanged; the drain step returns normally — no error
propagates out of it. -/
theorem C8_cache_rejection_is_nonfatal (t : Factory) (lbl : EID) (entry : LabelEntry)
    (tf : FileC) (sp : SpriteC) (d img : Nat)
    (hq : t.labelLoadQueue.lookup lbl = some entry)
    (htb : t.fontTableC entry.table = some ⟨some d⟩)
    (hsp : t.spriteC entry.sprite = some sp)
    (hspi : sp.sprite = some img)
    (hfile : t.fileC entry.table = some tf)
    (hmiss : t.bitmapFontCache.retrieve
      (fontCacheKey tf.path sp.spritePath sp.palettePath) = none)
    (hfull : t.bitmapFontCache.weight + 1 > t.bitmapFontCache.budget) :
    (t.addBitmapFontForLabel lbl).warnings
        = t.warnings ++ ["bitmap font cache insert rejected"] ∧
    (t.addBitmapFontForLabel lbl).bitmapFontC lbl = some ⟨t.nextFont⟩ ∧
    (t.addBitmapFontForLabel lbl).bitmapFontCache = t.bitmapFontCache := by
  have hcreate : t.createBitmapFont entry =
      (some t.nextFont,
       { t with nextFont := t.nextFont + 1,
                fonts := fun x => if x = t.nextFont then some ⟨false⟩ else t.fonts x }) := by
    unfold createBitmapFont
    rw [htb, hsp]
    dsimp only
    rw [if_neg (by simp [hspi])]
  simp only [addBitmapFontForLabel, hq]
  rw [htb, hsp, hfile]
  simp only [Option.isSome_some, Bool.and_self, Bool.not_true, if_false]
  rw [if_neg (by simp)]
  rw [hmiss]
  simp only [buildAndAttachFont, hcreate]
  simp only [Cache.insert]
  rw [if_pos hfull]
  simp only [if_pos rfl]
  exact ⟨rfl, by simp [warning, upd], by simp [warning]⟩

/-- A concrete factory whose font cache is filled to its budget with 64
unit-cost entries, and one queued label whose payloads are decoded. -/
def c8State : Factory :=
  { (newUIWidgetFactory (some ⟨some 0⟩)).boot with
    fileC := upd (fun _ => none) 2 (some ⟨"F.tbl"⟩)
    fontTableC := upd (fun _ => none) 2 (some ⟨some 0⟩)
    spriteC := upd (fun _ => none) 3 (some ⟨some 0, "F.dc6", "P"⟩)
    labelLoadQueue := [(1, ⟨2, 3⟩)]
    bitmapFontCache :=
      { budget := fontCacheBudget
        entries := (List.range 64).map (fun i => (toString i, 0, 1)) } }

/-- Witness for C8 at a concrete input. -/
theorem C8_witness :
    (c8State.addBitmapFontForLabel 1).warnings
        = c8State.warnings ++ ["bitmap font cache insert rejected"] ∧
    (c8State.addBitmapFontForLabel 1).bitmapFontC 1 = some ⟨c8State.nextFont⟩ ∧
    (c8State.addBitmapFontForLabel 1).bitmapFontCache = c8State.bitmapFontCache :=
  C8_cache_rejection_is_nonfatal c8State 1 ⟨2, 3⟩ ⟨"F.tbl"⟩ ⟨some 0, "F.dc6", "P"⟩ 0 0
    (by decide) (by decide) (by decide) (by decide) (by decide) (by decide) (by decide)

/-- A label created on a booted factory: label entity 1, glyph-table entity 2,
sprite entity 3. -/
def c1Created : EID × Factory := (newUIWidgetFactory (some ⟨some 0⟩)).boot.Label "Test" "F" "P"

/-- The loader decodes the glyph-table and sprite payloads of entities 2 and 3
but neither entity is marked `Ready`. -/
def c1Loaded : Factory := (c1Created.2.loadFontTable 2 0).loadSprite 3 0

/-- Two processing ticks for label 1: the first builds and attaches the
bitmap font, the second finalizes the label. -/
def c1Done : Factory := (c1Loaded.processLabel 1).processLabel 1

/-- C1 counterexample: the label entity 1 (whose load-queue entry records the
glyph-table entity 2 and the sprite entity 3) carries `Ready` although neither
entity 2 nor entity 3 ever carried `Ready` — the label pipeline checks the
presence of the `FontTable` and `Sprite` components, never the prerequisites'
`Ready` markers, so the claim as stated is false. -/
theorem C1_counterexample :
    c1Created.1 = 1 ∧
    c1Created.2.labelLoadQueue = [(1, LabelEntry.mk 2 3)] ∧
    c1Done.readyC 1 = true ∧
    c1Done.readyC 2 = false ∧
    c1Done.readyC 3 = false := by decide

lemma readyC_createBitmapFont (t : Factory) (entry : LabelEntry) :
    (t.createBitmapFont entry).2.readyC = t.readyC := by
  unfold createBitmapFont; dsimp only
  split <;> (try split) <;> rfl

lemma readyC_buildAndAttachFont (t : Factory) (lbl : EID) (entry : LabelEntry) (k : String) :
    (t.buildAndAttachFont lbl entry k).readyC = t.readyC := by
  unfold buildAndAttachFont
  split
  · next heq => have h := readyC_createBitmapFont t entry; rw [heq] at h; exact h
  · next bmf t2 heq =>
    have h := readyC_createBitmapFont t entry
    rw [heq] at h
    dsimp only at h ⊢
    split <;> exact h

/-- C1 amended: whenever a `processLabel` step turns a non-`Ready` label
`Ready`, either a `BitmapFont` component was already attached to the label, or
(on the cache-hit path) the `FontTable` component of the glyph-table entity
and the `Sprite` component of the sprite entity recorded in its load-queue
entry are present — component presence, not the prerequisites' `Ready`
markers, is what gates the label. -/
theorem C1_label_ready_after_components (t : Factory) (lbl : EID)
    (h0 : t.readyC lbl = false) (h1 : (t.processLabel lbl).readyC lbl = true) :
    (t.bitmapFontC lbl).isSome = true ∨
    (∃ e, t.labelLoadQueue.lookup lbl = some e ∧
       (t.fontTableC e.table).isSome = true ∧ (t.spriteC e.sprite).isSome = true) := by
  cases hbmf : t.bitmapFontC lbl with
  | some bmf => exact Or.inl rfl
  | none =>
    refine Or.inr ?_
    rw [processLabel, hbmf] at h1
    cases hq : t.labelLoadQueue.lookup lbl with
    | none => rw [addBitmapFontForLabel, hq] at h1; exact absurd h1 (by simp [h0])
    | some entry =>
      simp only [addBitmapFontForLabel, hq] at h1
      refine ⟨entry, rfl, ?_⟩
      by_cases hcomp : ((t.fontTableC entry.table).isSome && (t.spriteC entry.sprite).isSome) = true
      · rw [Bool.and_eq_true] at hcomp
        exact hcomp
      · have hfalse : ((t.fontTableC entry.table).isSome
            && (t.spriteC entry.sprite).isSome) = false := Bool.eq_false_iff.mpr hcomp
        rw [hfalse] at h1
        simp only [Bool.not_false, if_pos] at h1
        exact absurd h1 (by simp [h0])

/-- Witness for the amended C1 at a concrete input: the state after the first
processing tick, whose second tick finalizes label 1. -/
theorem C1_witness :
    (((c1Loaded.processLabel 1).bitmapFontC 1).isSome = true) ∨
    (∃ e, (c1Loaded.processLabel 1).labelLoadQueue.lookup 1 = some e ∧
       ((c1Loaded.processLabel 1).fontTableC e.table).isSome = true ∧
       ((c1Loaded.processLabel 1).spriteC e.sprite).isSome = true) :=
  C1_label_ready_after_components (c1Loaded.processLabel 1) 1 (by decide) (by decide)

/-- First label (entity 1, glyph table 2, sprite 3) created and processed one
tick on a booted factory: the font (id 0) is built, cached and attached, but
label 1 is not yet finalized. -/
def c5Built : Factory :=
  ((((newUIWidgetFactory (some ⟨some 0⟩)).boot.Label "a" "F" "P").2.loadFontTable
      2 0).loadSprite 3 0).processLabel 1

/-- A second label (entity 4, glyph table 5, sprite 6) with the same font and
palette paths. -/
def c5Second : EID × Factory := c5Built.Label "b" "F" "P"

/-- The second label's glyph table is decoded and its processing tick runs:
the font cache already holds the key, so the label finalizes through the
cache-hit path. -/
def c5Hit : Factory := (c5Second.2.loadFontTable 5 0).processLabel 4

/-- C5 counterexample: label 4 is finalized through the cache-hit path — it
carries `Ready`, its load-queue entry is removed, and the shared font 0 is
attached — yet its glyph-table entity 5 is still alive (not destroyed via the
world's entity removal) and the font's sprite has not been bound to the
renderer; so the claim fails on the cache-hit finalization path. -/
theorem C5_counterexample :
    c5Second.1 = 4 ∧
    c5Second.2.labelLoadQueue.lookup 4 = some (LabelEntry.mk 5 6) ∧
    c5Hit.readyC 4 = true ∧
    c5Hit.labelLoadQueue.lookup 4 = none ∧
    c5Hit.bitmapFontC 4 = some ⟨0⟩ ∧
    c5Hit.alive 5 = true ∧
    (c5Hit.fonts 0).map FontObj.bound = some false := by decide

/-- C5 amended: on the `processLabel` finalization path — a `BitmapFont`
component is already attached — the label is marked `Ready`, the glyph-table
entity recorded in its queue entry is destroyed, the font's sprite is bound to
the active renderer, and the queue entry is removed; the cache-hit
finalization path inside `addBitmapFontForLabel` does neither of the first
two (see the counterexample). -/
theorem C5_finalize_destroys_table_and_binds (t : Factory) (lbl : EID) (bmf : BitmapFontC)
    (entry : LabelEntry)
    (hb : t.bitmapFontC lbl = some bmf)
    (hq : t.labelLoadQueue.lookup lbl = some entry) :
    (t.processLabel lbl).readyC lbl = true ∧
    (t.processLabel lbl).alive entry.table = false ∧
    (t.processLabel lbl).fonts bmf.font
        = (t.fonts bmf.font).map (fun o => { o with bound := true }) ∧
    (t.processLabel lbl).labelLoadQueue.lookup lbl = none := by
  simp only [processLabel, hb, bindFont]
  rw [hq]
  simp only [Option.getD]
  refine ⟨?_, ?_, ?_, ?_⟩ <;>
    simp [addReady, removeEntity, upd, updB, lookup_eraseKey]

/-- Witness for the amended C5 at a concrete input: the first label's
own finalization tick. -/
theorem C5_witness :
    (c5Built.processLabel 1).readyC 1 = true ∧
    (c5Built.processLabel 1).alive 2 = false ∧
    (c5Built.processLabel 1).fonts 0
        = (c5Built.fonts 0).map (fun o => { o with bound := true }) ∧
    (c5Built.processLabel 1).labelLoadQueue.lookup 1 = none := by
  have h := C5_finalize_destroys_table_and_binds c5Built 1 ⟨0⟩ (LabelEntry.mk 2 3)
    (by decide) (by decide)
  exact h

/-- One fully processed label for the triple derived from font path
`"f" ++ toString i` and palette `"p"`: create the label, let the loader decode
its glyph table and sprite, and run two processing ticks (build + finalize). -/
def c3Step (t : Factory) (i : Nat) : Factory :=
  let p := t.Label "x" ("f" ++ toString i) "p"
  let t1 := p.2.loadFontTable (p.1 + 1) 0
  let t2 := t1.loadSprite (p.1 + 2) 0
  (t2.processLabel p.1).processLabel p.1

/-- 64 labels with 64 distinct triples `f0 … f63`: the cache is filled to its
budget of 64 unit-cost entries. -/
def c3Fill : Factory := (List.range 64).foldl c3Step ((newUIWidgetFactory (some ⟨some 0⟩)).boot)

/-- A 65th label requesting the fresh triple `f64`: its font (id 64) is built
but the cache insert is rejected by the budget. -/
def c3First : Factory := c3Step c3Fill 64

/-- A 66th label requesting the identical triple `f64`: the cache still
misses, so materialization runs again, yielding font id 65. -/
def c3Final : Factory := c3Step c3First 64

/-- C3 counterexample: labels 193 and 196 request the identical
(glyph-table path, sprite path, palette path) triple `f64.tbl / f64.dc6 / p`,
yet they end up referencing distinct `BitmapFont` objects (ids 64 and 65):
once the cache budget (64) is exhausted the insert is rejected — two warnings
were logged — and the materialization routine runs once per label rather than
once per distinct triple. -/
theorem C3_counterexample :
    c3Fill.nextEntity = 193 ∧
    c3First.nextEntity = 196 ∧
    c3Final.readyC 193 = true ∧
    c3Final.readyC 196 = true ∧
    c3Final.bitmapFontC 193 = some ⟨64⟩ ∧
    c3Final.bitmapFontC 196 = some ⟨65⟩ ∧
    c3Final.bitmapFontC 193 ≠ c3Final.bitmapFontC 196 ∧
    c3Final.warnings.length = 2 := by
  set_option maxRecDepth 10000 in decide

/-- C3 amended: as long as the cache still holds the triple's entry when a
label is processed (in particular whenever at most 64 distinct triples are
ever requested), the label receives the identity-equal cached font object, no
new font is materialized (`nextFont` is unchanged), the cache is unchanged,
and the label is `Ready`. -/
theorem C3_cache_hit_shares_font (t : Factory) (lbl : EID) (entry : LabelEntry)
    (tf : FileC) (sp : SpriteC) (tb : FontTableC) (f : FontId)
    (hq : t.labelLoadQueue.lookup lbl = some entry)
    (htb : t.fontTableC entry.table = some tb)
    (hsp : t.spriteC entry.sprite = some sp)
    (hfile : t.fileC entry.table = some tf)
    (hhit : t.bitmapFontCache.retrieve
      (fontCacheKey tf.path sp.spritePath sp.palettePath) = some f) :
    (t.addBitmapFontForLabel lbl).bitmapFontC lbl = some ⟨f⟩ ∧
    (t.addBitmapFontForLabel lbl).nextFont = t.nextFont ∧
    (t.addBitmapFontForLabel lbl).bitmapFontCache = t.bitmapFontCache ∧
    (t.addBitmapFontForLabel lbl).readyC lbl = true := by
  simp only [addBitmapFontForLabel, hq]
  rw [htb, hsp, hfile]
  simp only [Option.isSome_some, Bool.and_self, Bool.not_true, if_false]
  rw [if_neg (by simp)]
  rw [hhit]
  simp [attachCachedFont, addReady, upd, updB]

/-- A concrete factory with a queued label whose triple is already cached
(font id 7). -/
def c3wState : Factory :=
  { (newUIWidgetFactory (some ⟨some 0⟩)).boot with
    fileC := upd (fun _ => none) 2 (some ⟨"F.tbl"⟩)
    fontTableC := upd (fun _ => none) 2 (some ⟨none⟩)
    spriteC := upd (fun _ => none) 3 (some ⟨none, "F.dc6", "P"⟩)
    labelLoadQueue := [(1, ⟨2, 3⟩)]
    bitmapFontCache := { budget := fontCacheBudget, entries := [("F.tbl::F.dc6::P", 7, 1)] } }

/-- Witness for the amended C3 at a concrete input. -/
theorem C3_witness :
    (c3wState.addBitmapFontForLabel 1).bitmapFontC 1 = some ⟨7⟩ ∧
    (c3wState.addBitmapFontForLabel 1).nextFont = c3wState.nextFont ∧
    (c3wState.addBitmapFontForLabel 1).bitmapFontCache = c3wState.bitmapFontCache ∧
    (c3wState.addBitmapFontForLabel 1).readyC 1 = true :=
  C3_cache_hit_shares_font c3wState 1 ⟨2, 3⟩ ⟨"F.tbl"⟩ ⟨none, "F.dc6", "P"⟩ ⟨none⟩ 7
    (by decide) (by decide) (by decide) (by decide) (by decide)

end D2Widgets
